import Mathlib

/-!
# Shallow embedding of winget_updater.py

An effect-free embedding of the orchestration core of `winget_updater.py`.
External effects (platform queries, the elevation API, the download, the
installer subprocess, the upgrade process) are captured as an `Env` of the
responses the environment gives; the orchestration functions keep the
obfuscated names of the source (`q1R2s3`, `w7X8y9`, `z0A1b2`, `c3D4e5`,
`i9J0k1`, `o5P6q7`, `e9F1gH4`) and translate their control flow directly.
Observable operations and user-facing reports are recorded as an `Event`
trace; a run ends in an `Outcome`.
-/

/-! ## Python string helpers -/

/-- The whitespace characters removed by Python `str.strip()`:
space, tab, newline, carriage return, vertical tab, form feed. -/
def pyIsSpace (c : Char) : Bool :=
  c = ' ' || c = '\t' || c = '\n' || c = '\r' || c = '\x0b' || c = '\x0c'

/-- Python `str.strip()` on a list of characters: drop leading and trailing
whitespace. -/
def pyStripList (l : List Char) : List Char :=
  (((l.dropWhile pyIsSpace).reverse).dropWhile pyIsSpace).reverse

/-- Python `str.strip()`. -/
def pyStrip (s : String) : String :=
  String.mk (pyStripList s.data)

/-- `err = proc.stderr.strip() or proc.stdout.strip()` (line 215 of the
source): Python `or` takes the second operand when the first is falsy,
i.e. the empty string. -/
def installDiag (stderrText stdoutText : String) : String :=
  if pyStrip stderrText = "" then pyStrip stdoutText else pyStrip stderrText

/-! ## Download progress (`reporthook`, lines 189-192)

`urllib.request.urlretrieve` calls `reporthook(block_num, block_size,
total_size)` once before the first block and once per received block, with a
fixed `block_size` and `block_num = 0, 1, 2, ...`; `total_size` is negative
when the server does not report a length. The hook emits
`int(block_num * block_size * 100 / total_size)` when `total_size > 0` and
emits nothing otherwise. For non-negative operands `int(x / y)` is floor
division, embedded as `Nat` division. -/

/-- The percentage `reporthook` emits for one callback, `none` when the
guard `total_size > 0` suppresses the emission. -/
def reporthook (block_num block_size : Nat) (total_size : Int) : Option Nat :=
  if 0 < total_size then
    some (block_num * block_size * 100 / total_size.toNat)
  else
    none

/-- The sequence of percentages emitted over a download during which
`urlretrieve` issues `numCalls` callbacks (`block_num = 0 ... numCalls - 1`)
with fixed `block_size` and `total_size`. -/
def downloadEmissions (numCalls block_size : Nat) (total_size : Int) : List Nat :=
  (List.range numCalls).filterMap (fun i => reporthook i block_size total_size)

/-! ## Elevation (`e9F1gH4`, lines 82-93) -/

/-- The argument string built by `e9F1gH4`: the original `sys.argv`
entries, each wrapped in double quotes, joined by single spaces. -/
def e9F1gH4_params (argv : List String) : String :=
  String.intercalate " " (argv.map (fun a => "\"" ++ a ++ "\""))

/-- The `ShellExecuteW` request `e9F1gH4` issues. -/
structure ShellExecuteCall where
  verb : String
  file : String
  params : String
deriving DecidableEq, Repr

/-- `e9F1gH4`: issues `ShellExecuteW(None, "runas", sys.executable, params,
None, 1)` and then calls `sys.exit(0)`. `shellExecResult` is the value
`ShellExecuteW` returns (values `≤ 32` signal failure, e.g. `5` =
`SE_ERR_ACCESSDENIED` when the elevation request is rejected); the source
never inspects it, so it does not influence the result. Returns the issued
request and the process exit code. -/
def e9F1gH4 (executable : String) (argv : List String) (_shellExecResult : Int) :
    ShellExecuteCall × Nat :=
  ({ verb := "runas", file := executable, params := e9F1gH4_params argv }, 0)

/-! ## The orchestration state machine -/

/-- Result of the `powershell Add-AppxPackage` subprocess
(`subprocess.run` with `capture_output=True, text=True`). -/
structure ProcResult where
  returncode : Int
  stdout : String
  stderr : String
deriving DecidableEq, Repr

/-- The responses the environment gives to the effectful operations of one
run. `download` and `install` are `Except`: the `error` case is the Python
exception message caught by the worker `try`. `upgradeStartMs` is the time
at which the upgrade process reaches the started state (`none` when it never
starts); `upgradeExitCode` and `upgradeNormal` are the exit code and
`QProcess.NormalExit` flag delivered to the `finished` handler. -/
structure Env where
  system : String
  release : String
  isAdmin : Bool
  wingetPresent : Bool
  download : Except String Unit
  install : Except String ProcResult
  upgradeStartMs : Option Nat
  upgradeExitCode : Int
  upgradeNormal : Bool
deriving Repr

/-- `a7B2cD3`: `ctypes.windll.shell32.IsUserAnAdmin()`, failure treated as
not elevated. -/
def a7B2cD3 (e : Env) : Bool := e.isAdmin

/-- `i5J6kL7`: `shutil.which("winget") is not None`. -/
def i5J6kL7 (e : Env) : Bool := e.wingetPresent

/-- `m8N9oP0`: `urllib.request.urlretrieve`, either returning or raising. -/
def m8N9oP0 (e : Env) : Except String Unit := e.download

/-- Observable operations and user-facing reports of one run, in order. -/
inductive Event where
  | privilegeCheck
  | elevateRelaunch
  | toolProbe
  | download
  | installerInvoke
  | upgradeLaunch
  | fatal (msg : String)
  | launchErrorReport
  | successReport
  | upgradeErrorReport (code : Int)
deriving DecidableEq, Repr

/-- Why a run ended in the Failed terminal state. -/
inductive FailReason where
  | unsupportedPlatform
  | bootstrapFailed (message : String)
  | launchFailed
  | upgradeExit (code : Int)
deriving DecidableEq, Repr

/-- Terminal outcome of one run of the current process instance.
`relaunched` is the elevation path: the current instance exits inside
`e9F1gH4` and never reaches a terminal state of its own. -/
inductive Outcome where
  | relaunched
  | succeeded
  | failed (r : FailReason)
deriving DecidableEq, Repr

/-- `o5P6q7`: log the fatal message, show the critical dialog, and quit the
application via `QApplication.instance().quit()`. -/
def o5P6q7 (msg : String) (r : FailReason) : List Event × Outcome :=
  ([Event.fatal msg], Outcome.failed r)

/-- The timeout passed to `waitForStarted` at line 245 of the source. -/
def waitForStartedTimeoutMs : Nat := 3000

/-- `QProcess.waitForStarted(timeoutMs)`: true exactly when the process
reaches the started state within the timeout. -/
def waitForStarted (timeoutMs : Nat) (startMs : Option Nat) : Bool :=
  match startMs with
  | none => false
  | some t => t ≤ timeoutMs

/-- `i9J0k1`: handler for upgrade-process completion. Success status and
log line on `NormalExit` with code 0; otherwise an error status naming the
exit code plus a warning dialog. -/
def i9J0k1 (e : Env) : List Event × Outcome :=
  if e.upgradeNormal = true ∧ e.upgradeExitCode = 0 then
    ([Event.successReport], Outcome.succeeded)
  else
    ([Event.upgradeErrorReport e.upgradeExitCode],
      Outcome.failed (FailReason.upgradeExit e.upgradeExitCode))

/-- `c3D4e5`: start `winget upgrade --all ...` via `QProcess.start`; if
`waitForStarted(3000)` fails, log the launch error and set the
`Launch error` status (`x4Y5z6`); otherwise the `finished` handler
`i9J0k1` eventually delivers the exit status. -/
def c3D4e5 (e : Env) : List Event × Outcome :=
  if waitForStarted waitForStartedTimeoutMs e.upgradeStartMs then
    let r := i9J0k1 e
    (Event.upgradeLaunch :: r.1, r.2)
  else
    ([Event.upgradeLaunch, Event.launchErrorReport],
      Outcome.failed FailReason.launchFailed)

/-- `w7X8y9`: the background worker. Downloads the msixbundle, then runs
the installer subprocess; any exception is caught and reported through the
single `finished(success, message)` signal, success only on download
success and installer exit code 0. Returns that signal. -/
def w7X8y9 (e : Env) : Bool × String :=
  match m8N9oP0 e with
  | Except.error exc => (false, "Error: " ++ exc)
  | Except.ok _ =>
    match e.install with
    | Except.error exc => (false, "Error: " ++ exc)
    | Except.ok proc =>
      if proc.returncode ≠ 0 then
        (false, "Failed to install winget:\n" ++ installDiag proc.stderr proc.stdout)
      else
        (true, "winget installed")

/-- The operations the worker performs: the download always starts; the
installer is invoked exactly when the download returned. -/
def workerEvents (e : Env) : List Event :=
  match e.download with
  | Except.error _ => [Event.download]
  | Except.ok _ => [Event.download, Event.installerInvoke]

/-- `z0A1b2`: handler for the worker's `finished` signal. On success,
continue to the upgrade (`c3D4e5` after a 500 ms single-shot); on failure,
fatal report via `o5P6q7`. -/
def z0A1b2 (e : Env) (success : Bool) (message : String) : List Event × Outcome :=
  if success then
    c3D4e5 e
  else
    o5P6q7 ("winget installation failed.\n" ++ message)
      (FailReason.bootstrapFailed message)

/-- `q1R2s3`: the main sequential set of steps. Platform gate, then
privilege gate (relaunch and exit when not elevated), then the winget
probe, then either the upgrade directly or the bootstrap worker first. -/
def q1R2s3 (e : Env) : List Event × Outcome :=
  if e.system ≠ "Windows" then
    o5P6q7 "This program runs only on Windows." FailReason.unsupportedPlatform
  else if e.release ≠ "10" ∧ e.release ≠ "11" then
    o5P6q7 "Only Windows 10 and Windows 11 are supported."
      FailReason.unsupportedPlatform
  else if a7B2cD3 e = false then
    ([Event.privilegeCheck, Event.elevateRelaunch], Outcome.relaunched)
  else if i5J6kL7 e then
    let r := c3D4e5 e
    (Event.privilegeCheck :: Event.toolProbe :: r.1, r.2)
  else
    let w := w7X8y9 e
    let r := z0A1b2 e w.1 w.2
    (Event.privilegeCheck :: Event.toolProbe :: (workerEvents e ++ r.1), r.2)

/-- `QApplication.quit()` (called by `o5P6q7`) is equivalent to
`QCoreApplication.exit(0)`: the event loop returns 0. -/
def quitReturnCode : Nat := 0

/-- The exit code of the host process, `sys.exit(app.exec_())` in `A7b8C9`:
after a fatal `o5P6q7` the loop returns `quitReturnCode`; on the successful
path the loop returns 0 when the window closes; on the relaunch path the
process already exited with `sys.exit(0)` inside `e9F1gH4`. -/
def A7b8C9_exitCode (e : Env) : Nat :=
  match (q1R2s3 e).2 with
  | Outcome.failed _ => quitReturnCode
  | Outcome.succeeded => 0
  | Outcome.relaunched => 0

/-! ## Helper lemmas on Python strip -/

/-- An element that fails the predicate survives `dropWhile`. -/
theorem mem_dropWhile_of_not (p : Char → Bool) (l : List Char) (c : Char)
    (hc : c ∈ l) (hp : ¬ p c = true) : c ∈ l.dropWhile p := by
  induction l with
  | nil => cases hc
  | cons a t ih =>
    by_cases hpa : p a = true
    · rw [List.dropWhile_cons_of_pos hpa]
      rcases List.mem_cons.mp hc with h | h
      · exact absurd (h ▸ hpa) hp
      · exact ih h
    · rw [List.dropWhile_cons_of_neg hpa]
      exact hc

/-- `pyStripList` yields the empty list exactly when every character is
Python whitespace. -/
theorem pyStripList_eq_nil_iff (l : List Char) :
    pyStripList l = [] ↔ ∀ c ∈ l, pyIsSpace c = true := by
  constructor
  · intro h c hc
    by_contra hp
    have h1 : c ∈ l.dropWhile pyIsSpace := mem_dropWhile_of_not _ _ _ hc hp
    have h2 : c ∈ (l.dropWhile pyIsSpace).reverse := List.mem_reverse.mpr h1
    have h3 : c ∈ ((l.dropWhile pyIsSpace).reverse).dropWhile pyIsSpace :=
      mem_dropWhile_of_not _ _ _ h2 hp
    have h4 : c ∈ pyStripList l := List.mem_reverse.mpr h3
    rw [h] at h4
    exact absurd h4 (List.not_mem_nil c)
  · intro h
    have h1 : l.dropWhile pyIsSpace = [] := List.dropWhile_eq_nil_iff.mpr h
    simp [pyStripList, h1]

/-- `pyStrip` yields the empty string exactly when every character is
Python whitespace. -/
theorem pyStrip_eq_empty_iff (s : String) :
    pyStrip s = "" ↔ ∀ c ∈ s.data, pyIsSpace c = true := by
  rw [← pyStripList_eq_nil_iff]
  constructor
  · intro h
    have := congrArg String.data h
    simpa [pyStrip] using this
  · intro h
    simp [pyStrip, h]

/-! ## Claims C1 and C2: process exit codes -/

/-- Environment for the C1 counterexample: a non-Windows host. -/
def envC1 : Env :=
  { system := "Linux", release := "6.8", isAdmin := false,
    wingetPresent := false, download := Except.ok (),
    install := Except.ok { returncode := 0, stdout := "", stderr := "" },
    upgradeStartMs := none, upgradeExitCode := 0, upgradeNormal := true }

/-- C1 counterexample: a run on a non-Windows host ends in the Failed
terminal state (unsupported platform is a fatal error), yet the host
process exit code is 0 and not non-zero: `o5P6q7` quits through
`QApplication.quit()`, whose event-loop return value is 0, and `A7b8C9`
passes that value to `sys.exit`. -/
theorem c1_counterexample :
    (q1R2s3 envC1).2 = Outcome.failed FailReason.unsupportedPlatform ∧
    A7b8C9_exitCode envC1 = 0 ∧ ¬ A7b8C9_exitCode envC1 ≠ 0 := by
  refine ⟨rfl, rfl, ?_⟩
  intro h
  exact h rfl

/-- C1 (amended): the host process exits with code 0 on the successful
upgrade path, and also exits with code 0 on every Failed terminal state,
because the fatal handler ends the run with `QApplication.quit()` (event
loop returns `quitReturnCode = 0`); the exit code is 0 for every run. -/
theorem c1_exit_code_amended (e : Env) :
    A7b8C9_exitCode e = 0 ∧ quitReturnCode = 0 := by
  constructor
  · unfold A7b8C9_exitCode
    cases (q1R2s3 e).2 <;> rfl
  · rfl

/-- C2 counterexample: with `ShellExecuteW` returning 5
(`SE_ERR_ACCESSDENIED`, a value ≤ 32, i.e. the elevation request was
rejected), `e9F1gH4` still exits the process with code 0, not non-zero:
the return value of `ShellExecuteW` is never inspected. -/
theorem c2_counterexample :
    (5 : Int) ≤ 32 ∧
    (e9F1gH4 "C:\\Python312\\python.exe" ["winget_updater.py"] 5).2 = 0 ∧
    ¬ (e9F1gH4 "C:\\Python312\\python.exe" ["winget_updater.py"] 5).2 ≠ 0 := by
  refine ⟨by decide, rfl, ?_⟩
  intro h
  exact h rfl

/-- C2 (amended): the elevate-and-restart operation issues the OS elevation
request (`runas` verb, same executable, original arguments each wrapped in
double quotes) and then exits the current process immediately with exit
code 0, regardless of whether the elevation request launched successfully
or was rejected: the `ShellExecuteW` return value is ignored. -/
theorem c2_elevate_amended (executable : String) (argv : List String) (r : Int) :
    e9F1gH4 executable argv r =
      ({ verb := "runas", file := executable,
         params := e9F1gH4_params argv }, 0) := rfl

/-! ## Claim C4: upgrade-process terminal transition -/

/-- C4: the run reaches the Succeeded terminal state exactly when the
upgrade process terminated normally (`QProcess.NormalExit`) with exit code
0; otherwise it reaches Failed with the exit code recorded, and the
user-facing report (error status plus warning dialog) names that exit
code. -/
theorem c4_upgrade_terminal (e : Env) :
    ((i9J0k1 e).2 = Outcome.succeeded ↔
      e.upgradeNormal = true ∧ e.upgradeExitCode = 0) ∧
    (¬ (e.upgradeNormal = true ∧ e.upgradeExitCode = 0) →
      (i9J0k1 e).2 = Outcome.failed (FailReason.upgradeExit e.upgradeExitCode) ∧
      Event.upgradeErrorReport e.upgradeExitCode ∈ (i9J0k1 e).1) := by
  unfold i9J0k1
  split_ifs with h
  · simp [h]
  · simp [h]

/-- Environment for the C4 witness: upgrade exits with code 1. -/
def envC4 : Env :=
  { system := "Windows", release := "11", isAdmin := true,
    wingetPresent := true, download := Except.ok (),
    install := Except.ok { returncode := 0, stdout := "", stderr := "" },
    upgradeStartMs := some 40, upgradeExitCode := 1, upgradeNormal := true }

/-- C4 witness at a concrete environment whose upgrade exits with code 1. -/
theorem c4_upgrade_terminal_witness :
    ((i9J0k1 envC4).2 = Outcome.succeeded ↔
      envC4.upgradeNormal = true ∧ envC4.upgradeExitCode = 0) ∧
    (¬ (envC4.upgradeNormal = true ∧ envC4.upgradeExitCode = 0) →
      (i9J0k1 envC4).2 =
        Outcome.failed (FailReason.upgradeExit envC4.upgradeExitCode) ∧
      Event.upgradeErrorReport envC4.upgradeExitCode ∈ (i9J0k1 envC4).1) :=
  c4_upgrade_terminal envC4

/-! ## Claim C7: installer diagnostic text -/

/-- C7 counterexample: with captured standard error `" "` (non-empty: a
single space) and captured standard output `"Deployment failed"`, the
diagnostic is `"Deployment failed"`, not the captured standard error: the
source strips both streams first, so a non-empty whitespace-only stderr
falls through to stdout. Moreover, when both streams are whitespace-only
text, the diagnostic is empty even though both streams produced text. -/
theorem c7_counterexample :
    (" " : String) ≠ "" ∧
    installDiag " " "Deployment failed" = "Deployment failed" ∧
    installDiag " " "Deployment failed" ≠ " " ∧
    installDiag " " "\t" = "" := by
  refine ⟨by decide, rfl, by decide, rfl⟩

/-- C7 (amended): when the installer exits non-zero, the diagnostic is the
stripped captured standard error if that is non-empty, otherwise the
stripped captured standard output; it is empty exactly when both streams
consist entirely of whitespace, so it is non-empty whenever either stream
produced a non-whitespace character. -/
theorem c7_install_diag_amended (se so : String) :
    (pyStrip se ≠ "" → installDiag se so = pyStrip se) ∧
    (pyStrip se = "" → installDiag se so = pyStrip so) ∧
    (installDiag se so = "" ↔
      (∀ c ∈ se.data, pyIsSpace c = true) ∧ (∀ c ∈ so.data, pyIsSpace c = true)) := by
  refine ⟨fun h => by simp [installDiag, h], fun h => by simp [installDiag, h], ?_⟩
  by_cases h : pyStrip se = ""
  · rw [installDiag, if_pos h, pyStrip_eq_empty_iff]
    have hse := (pyStrip_eq_empty_iff se).mp h
    exact ⟨fun hso => ⟨hse, hso⟩, fun h2 => h2.2⟩
  · rw [installDiag, if_neg h]
    constructor
    · intro h1
      exact absurd h1 h
    · intro h1
      exact absurd ((pyStrip_eq_empty_iff se).mpr h1.1) h

/-- C7 witness: the amended diagnostic rule at a concrete stderr and
stdout. -/
theorem c7_install_diag_amended_witness :
    (pyStrip "access denied\n" ≠ "" →
      installDiag "access denied\n" "out" = pyStrip "access denied\n") ∧
    (pyStrip "access denied\n" = "" →
      installDiag "access denied\n" "out" = pyStrip "out") ∧
    (installDiag "access denied\n" "out" = "" ↔
      (∀ c ∈ ("access denied\n" : String).data, pyIsSpace c = true) ∧
      (∀ c ∈ ("out" : String).data, pyIsSpace c = true)) :=
  c7_install_diag_amended "access denied\n" "out"

/-! ## Claim C10: the background worker signals -/

/-- C10: the worker `w7X8y9` always delivers exactly one
`finished(success, message)` signal (it is a total function into one
pair): any caught exception from the download or from spawning the
installer becomes a failure signal carrying the exception message, a
non-zero installer exit becomes a failure signal carrying the diagnostic,
and the success signal is emitted exactly when the download returned and
the installer exited 0 — never after an exception. -/
theorem c10_worker_single_signal (e : Env) :
    ((w7X8y9 e).1 = true ↔
      e.download = Except.ok () ∧
      ∃ p, e.install = Except.ok p ∧ p.returncode = 0) ∧
    (∀ exc, e.download = Except.error exc →
      w7X8y9 e = (false, "Error: " ++ exc)) ∧
    (∀ exc, e.download = Except.ok () → e.install = Except.error exc →
      w7X8y9 e = (false, "Error: " ++ exc)) ∧
    (∀ p, e.download = Except.ok () → e.install = Except.ok p →
      p.returncode ≠ 0 →
      w7X8y9 e = (false, "Failed to install winget:\n" ++
        installDiag p.stderr p.stdout)) := by
  rcases hd : e.download with exc | u
  · simp [w7X8y9, m8N9oP0, hd]
  · cases u
    rcases hi : e.install with exc | proc
    · simp [w7X8y9, m8N9oP0, hd, hi]
    · by_cases hrc : proc.returncode = 0
      · simp [w7X8y9, m8N9oP0, hd, hi, hrc]
      · simp [w7X8y9, m8N9oP0, hd, hi, hrc]

/-- Environment for the C10 witness: the download raises. -/
def envC10 : Env :=
  { system := "Windows", release := "10", isAdmin := true,
    wingetPresent := false, download := Except.error "HTTP Error 404: Not Found",
    install := Except.ok { returncode := 0, stdout := "", stderr := "" },
    upgradeStartMs := none, upgradeExitCode := 0, upgradeNormal := true }

/-- C10 witness at a concrete environment whose download raises. -/
theorem c10_worker_single_signal_witness :
    ((w7X8y9 envC10).1 = true ↔
      envC10.download = Except.ok () ∧
      ∃ p, envC10.install = Except.ok p ∧ p.returncode = 0) ∧
    (∀ exc, envC10.download = Except.error exc →
      w7X8y9 envC10 = (false, "Error: " ++ exc)) ∧
    (∀ exc, envC10.download = Except.ok () → envC10.install = Except.error exc →
      w7X8y9 envC10 = (false, "Error: " ++ exc)) ∧
    (∀ p, envC10.download = Except.ok () → envC10.install = Except.ok p →
      p.returncode ≠ 0 →
      w7X8y9 envC10 = (false, "Failed to install winget:\n" ++
        installDiag p.stderr p.stdout)) :=
  c10_worker_single_signal envC10

/-! ## Branch characterizations of q1R2s3 -/

/-- On a supported, elevated host with winget present, the run is the
probe followed by the upgrade step. -/
theorem q1R2s3_present (e : Env)
    (hs : e.system = "Windows")
    (hrel : ¬ (e.release ≠ "10" ∧ e.release ≠ "11"))
    (ha : e.isAdmin = true) (hw : e.wingetPresent = true) :
    q1R2s3 e = (Event.privilegeCheck :: Event.toolProbe :: (c3D4e5 e).1,
      (c3D4e5 e).2) := by
  simp [q1R2s3, hs, hrel, a7B2cD3, ha, i5J6kL7, hw]

/-- On a supported, elevated host with winget absent, the run is the probe
followed by the worker and the completion handler. -/
theorem q1R2s3_absent (e : Env)
    (hs : e.system = "Windows")
    (hrel : ¬ (e.release ≠ "10" ∧ e.release ≠ "11"))
    (ha : e.isAdmin = true) (hw : e.wingetPresent = false) :
    q1R2s3 e = (Event.privilegeCheck :: Event.toolProbe ::
      (workerEvents e ++ (z0A1b2 e (w7X8y9 e).1 (w7X8y9 e).2).1),
      (z0A1b2 e (w7X8y9 e).1 (w7X8y9 e).2).2) := by
  simp [q1R2s3, hs, hrel, a7B2cD3, ha, i5J6kL7, hw]

/-- The upgrade step always records the launch first, then either the
completion handler events or the launch-error report. -/
theorem c3D4e5_events_cases (e : Env) :
    c3D4e5 e = (Event.upgradeLaunch :: (i9J0k1 e).1, (i9J0k1 e).2) ∨
    c3D4e5 e = ([Event.upgradeLaunch, Event.launchErrorReport],
      Outcome.failed FailReason.launchFailed) := by
  unfold c3D4e5
  split_ifs with h
  · left; rfl
  · right; rfl

/-- The completion handler emits either the success report or the error
report naming the exit code. -/
theorem i9J0k1_events_cases (e : Env) :
    (i9J0k1 e).1 = [Event.successReport] ∨
    (i9J0k1 e).1 = [Event.upgradeErrorReport e.upgradeExitCode] := by
  unfold i9J0k1
  split_ifs with h
  · left; rfl
  · right; rfl

/-! ## Claim C3: bootstrap gates the upgrade -/

/-- C3: when the probe reports winget absent, the upgrade command is
launched if and only if the download returned and the installer exited 0;
any download exception or non-zero installer exit ends the run in the
Failed terminal state (with the bootstrap-failure message) without the
upgrade ever starting. -/
theorem c3_bootstrap_gates_upgrade (e : Env)
    (hs : e.system = "Windows") (hr : e.release = "10" ∨ e.release = "11")
    (ha : e.isAdmin = true) (hw : e.wingetPresent = false) :
    (Event.upgradeLaunch ∈ (q1R2s3 e).1 ↔
      e.download = Except.ok () ∧
      ∃ p, e.install = Except.ok p ∧ p.returncode = 0) ∧
    (¬ (e.download = Except.ok () ∧
        ∃ p, e.install = Except.ok p ∧ p.returncode = 0) →
      ∃ m, (q1R2s3 e).2 = Outcome.failed (FailReason.bootstrapFailed m)) := by
  have hrel : ¬ (e.release ≠ "10" ∧ e.release ≠ "11") := by
    rcases hr with h | h <;> simp [h]
  have hq := q1R2s3_absent e hs hrel ha hw
  rw [hq]
  rcases hd : e.download with exc | u
  · simp [w7X8y9, m8N9oP0, hd, z0A1b2, o5P6q7, workerEvents]
  · cases u
    rcases hi : e.install with exc | proc
    · simp [w7X8y9, m8N9oP0, hd, hi, z0A1b2, o5P6q7, workerEvents]
    · by_cases hrc : proc.returncode = 0
      · have hwres : w7X8y9 e = (true, "winget installed") := by
          simp [w7X8y9, m8N9oP0, hd, hi, hrc]
        have hz : z0A1b2 e (w7X8y9 e).1 (w7X8y9 e).2 = c3D4e5 e := by
          rw [hwres]
          simp [z0A1b2]
        rw [hz]
        have hmem : Event.upgradeLaunch ∈ Event.privilegeCheck ::
            Event.toolProbe :: (workerEvents e ++ (c3D4e5 e).1) := by
          rcases c3D4e5_events_cases e with hc | hc <;> simp [hc]
        exact ⟨⟨fun _ => ⟨rfl, proc, rfl, hrc⟩, fun _ => hmem⟩,
          fun hcon => absurd ⟨rfl, proc, rfl, hrc⟩ hcon⟩
      · simp [w7X8y9, m8N9oP0, hd, hi, hrc, z0A1b2, o5P6q7, workerEvents]

/-- Environment for the C3 witness: winget absent, download and install
succeed. -/
def envC3 : Env :=
  { system := "Windows", release := "10", isAdmin := true,
    wingetPresent := false, download := Except.ok (),
    install := Except.ok { returncode := 0, stdout := "Deployment ok", stderr := "" },
    upgradeStartMs := some 120, upgradeExitCode := 0, upgradeNormal := true }

/-- C3 witness at a concrete environment with a successful bootstrap. -/
theorem c3_bootstrap_gates_upgrade_witness :
    (Event.upgradeLaunch ∈ (q1R2s3 envC3).1 ↔
      envC3.download = Except.ok () ∧
      ∃ p, envC3.install = Except.ok p ∧ p.returncode = 0) ∧
    (¬ (envC3.download = Except.ok () ∧
        ∃ p, envC3.install = Except.ok p ∧ p.returncode = 0) →
      ∃ m, (q1R2s3 envC3).2 = Outcome.failed (FailReason.bootstrapFailed m)) :=
  c3_bootstrap_gates_upgrade envC3 rfl (Or.inl rfl) rfl rfl

/-! ## Claim C5: unsupported platform short-circuits everything -/

/-- C5: on any platform other than Windows release 10 or 11, the run ends
in the Failed terminal state with only the fatal report in its trace: the
privilege check, the elevation relaunch, the tool probe, the download, the
installer invocation and the upgrade launch are all never invoked. -/
theorem c5_unsupported_short_circuit (e : Env)
    (h : e.system ≠ "Windows" ∨ (e.release ≠ "10" ∧ e.release ≠ "11")) :
    (q1R2s3 e).2 = Outcome.failed FailReason.unsupportedPlatform ∧
    (∃ m, (q1R2s3 e).1 = [Event.fatal m]) ∧
    Event.privilegeCheck ∉ (q1R2s3 e).1 ∧
    Event.elevateRelaunch ∉ (q1R2s3 e).1 ∧
    Event.toolProbe ∉ (q1R2s3 e).1 ∧
    Event.download ∉ (q1R2s3 e).1 ∧
    Event.installerInvoke ∉ (q1R2s3 e).1 ∧
    Event.upgradeLaunch ∉ (q1R2s3 e).1 := by
  have hq : q1R2s3 e =
      o5P6q7 "This program runs only on Windows."
        FailReason.unsupportedPlatform ∨
      q1R2s3 e =
      o5P6q7 "Only Windows 10 and Windows 11 are supported."
        FailReason.unsupportedPlatform := by
    by_cases hsys : e.system = "Windows"
    · rcases h with hns | hrel
      · exact absurd hsys hns
      · right
        simp [q1R2s3, hsys, hrel]
    · left
      simp [q1R2s3, hsys]
  rcases hq with hq | hq <;> rw [hq] <;>
    exact ⟨rfl, ⟨_, rfl⟩, by simp [o5P6q7], by simp [o5P6q7], by simp [o5P6q7],
      by simp [o5P6q7], by simp [o5P6q7], by simp [o5P6q7]⟩

/-- Environment for the C5 witness: a macOS host. -/
def envC5 : Env :=
  { system := "Darwin", release := "23.5.0", isAdmin := true,
    wingetPresent := false, download := Except.ok (),
    install := Except.ok { returncode := 0, stdout := "", stderr := "" },
    upgradeStartMs := some 10, upgradeExitCode := 0, upgradeNormal := true }

/-- C5 witness at a concrete non-Windows environment. -/
theorem c5_unsupported_short_circuit_witness :
    (q1R2s3 envC5).2 = Outcome.failed FailReason.unsupportedPlatform ∧
    (∃ m, (q1R2s3 envC5).1 = [Event.fatal m]) ∧
    Event.privilegeCheck ∉ (q1R2s3 envC5).1 ∧
    Event.elevateRelaunch ∉ (q1R2s3 envC5).1 ∧
    Event.toolProbe ∉ (q1R2s3 envC5).1 ∧
    Event.download ∉ (q1R2s3 envC5).1 ∧
    Event.installerInvoke ∉ (q1R2s3 envC5).1 ∧
    Event.upgradeLaunch ∉ (q1R2s3 envC5).1 :=
  c5_unsupported_short_circuit envC5 (Or.inl (by decide))

/-! ## Claim C6: winget present skips the bootstrap -/

/-- C6: when the probe reports winget present, the download and the
installer invocation never appear in the run, and the trace goes directly
from the probe to the upgrade launch. -/
theorem c6_present_skips_bootstrap (e : Env)
    (hs : e.system = "Windows") (hr : e.release = "10" ∨ e.release = "11")
    (ha : e.isAdmin = true) (hw : e.wingetPresent = true) :
    Event.download ∉ (q1R2s3 e).1 ∧
    Event.installerInvoke ∉ (q1R2s3 e).1 ∧
    (∃ rest, (q1R2s3 e).1 =
      Event.privilegeCheck :: Event.toolProbe :: Event.upgradeLaunch :: rest) := by
  have hrel : ¬ (e.release ≠ "10" ∧ e.release ≠ "11") := by
    rcases hr with h | h <;> simp [h]
  have hq := q1R2s3_present e hs hrel ha hw
  rw [hq]
  rcases c3D4e5_events_cases e with hc | hc
  · rcases i9J0k1_events_cases e with hi | hi <;>
      · rw [hc]
        simp [hi]
  · rw [hc]
    simp

/-- Environment for the C6 witness: winget present, upgrade succeeds. -/
def envC6 : Env :=
  { system := "Windows", release := "11", isAdmin := true,
    wingetPresent := true, download := Except.ok (),
    install := Except.ok { returncode := 0, stdout := "", stderr := "" },
    upgradeStartMs := some 30, upgradeExitCode := 0, upgradeNormal := true }

/-- C6 witness at a concrete environment with winget present. -/
theorem c6_present_skips_bootstrap_witness :
    Event.download ∉ (q1R2s3 envC6).1 ∧
    Event.installerInvoke ∉ (q1R2s3 envC6).1 ∧
    (∃ rest, (q1R2s3 envC6).1 =
      Event.privilegeCheck :: Event.toolProbe :: Event.upgradeLaunch :: rest) :=
  c6_present_skips_bootstrap envC6 rfl (Or.inr rfl) rfl rfl

/-! ## Claim C9: bounded launch failure -/

/-- C9: when the upgrade process does not reach the started state within
the bounded startup timeout (3000 ms, the literal passed to
`waitForStarted`), the run records the distinct launch-error report and
ends in the Failed terminal state with the `launchFailed` reason — no
success report and no exit-code report is ever emitted. -/
theorem c9_launch_failure (e : Env)
    (hs : e.system = "Windows") (hr : e.release = "10" ∨ e.release = "11")
    (ha : e.isAdmin = true) (hw : e.wingetPresent = true)
    (hl : waitForStarted waitForStartedTimeoutMs e.upgradeStartMs = false) :
    waitForStartedTimeoutMs = 3000 ∧
    (q1R2s3 e).2 = Outcome.failed FailReason.launchFailed ∧
    (q1R2s3 e).1 = [Event.privilegeCheck, Event.toolProbe,
      Event.upgradeLaunch, Event.launchErrorReport] ∧
    Event.successReport ∉ (q1R2s3 e).1 ∧
    (∀ c, Event.upgradeErrorReport c ∉ (q1R2s3 e).1) := by
  have hrel : ¬ (e.release ≠ "10" ∧ e.release ≠ "11") := by
    rcases hr with h | h <;> simp [h]
  have hq := q1R2s3_present e hs hrel ha hw
  have hc : c3D4e5 e = ([Event.upgradeLaunch, Event.launchErrorReport],
      Outcome.failed FailReason.launchFailed) := by
    simp [c3D4e5, hl]
  rw [hq, hc]
  exact ⟨rfl, rfl, rfl, by simp, fun c => by simp⟩

/-- Environment for the C9 witness: the upgrade process never starts. -/
def envC9 : Env :=
  { system := "Windows", release := "10", isAdmin := true,
    wingetPresent := true, download := Except.ok (),
    install := Except.ok { returncode := 0, stdout := "", stderr := "" },
    upgradeStartMs := none, upgradeExitCode := 0, upgradeNormal := true }

/-- C9 witness at a concrete environment whose upgrade process never
starts. -/
theorem c9_launch_failure_witness :
    waitForStartedTimeoutMs = 3000 ∧
    (q1R2s3 envC9).2 = Outcome.failed FailReason.launchFailed ∧
    (q1R2s3 envC9).1 = [Event.privilegeCheck, Event.toolProbe,
      Event.upgradeLaunch, Event.launchErrorReport] ∧
    Event.successReport ∉ (q1R2s3 envC9).1 ∧
    (∀ c, Event.upgradeErrorReport c ∉ (q1R2s3 envC9).1) :=
  c9_launch_failure envC9 rfl (Or.inl rfl) rfl rfl rfl

/-! ## Claim C8: download progress -/

/-- Under a known positive total size, every callback emits a percentage. -/
theorem reporthook_pos (bs : Nat) (ts : Int) (hts : 0 < ts) (i : Nat) :
    reporthook i bs ts = some (i * bs * 100 / ts.toNat) := by
  simp [reporthook, hts]

/-- C8 counterexample: for a download whose known total size is 100 bytes,
`urlretrieve` with its fixed 8192-byte blocks issues the callback
`reporthook(1, 8192, 100)` after the first (and only) block, and the
emitted percentage is 8192, far above 100: the hook computes
`int(block_num * block_size * 100 / total_size)` with no clamping, so the
reported transferred amount (one whole block) exceeds the total. -/
theorem c8_counterexample :
    reporthook 1 8192 100 = some 8192 ∧ ¬ 8192 ≤ 100 ∧
    downloadEmissions 2 8192 100 = [0, 8192] := by
  refine ⟨by decide, by decide, by decide⟩

/-- C8 (amended): across one download with a known positive total size,
the sequence of percentages delivered to the progress callback is
monotonically non-decreasing; but the emitted percentage is the unclamped
`block_num * block_size * 100 / total_size` and may exceed 100. -/
theorem c8_progress_monotone_amended (n bs : Nat) (ts : Int) (hts : 0 < ts) :
    List.Pairwise (· ≤ ·) (downloadEmissions n bs ts) ∧
    (∀ i j p q, i ≤ j → reporthook i bs ts = some p →
      reporthook j bs ts = some q → p ≤ q) := by
  have hstep : ∀ i j : Nat, i ≤ j →
      i * bs * 100 / ts.toNat ≤ j * bs * 100 / ts.toNat := by
    intro i j hij
    exact Nat.div_le_div_right
      (Nat.mul_le_mul_right 100 (Nat.mul_le_mul_right bs hij))
  constructor
  · have hmap : downloadEmissions n bs ts =
        (List.range n).map (fun i => i * bs * 100 / ts.toNat) :=
      List.filterMap_eq_map_iff_forall_eq_some.mpr
        (fun i _ => reporthook_pos bs ts hts i)
    rw [hmap, List.pairwise_map]
    exact (List.pairwise_lt_range n).imp (fun hij => hstep _ _ (le_of_lt hij))
  · intro i j p q hij hp hq
    rw [reporthook_pos bs ts hts i] at hp
    rw [reporthook_pos bs ts hts j] at hq
    cases hp
    cases hq
    exact hstep i j hij

/-- C8 witness: the monotone emission sequence at a concrete download of
100 bytes observed over three callbacks. -/
theorem c8_progress_monotone_amended_witness :
    List.Pairwise (· ≤ ·) (downloadEmissions 3 8192 100) ∧
    (∀ i j p q, i ≤ j → reporthook i 8192 100 = some p →
      reporthook j 8192 100 = some q → p ≤ q) :=
  c8_progress_monotone_amended 3 8192 100 (by decide)
